import Mathlib

/-!
A shallow embedding of the server-side RPC dispatcher (`ServerComponent`) of the
nuclide service framework, together with proofs about its message protocol.

The embedding models the dynamically-typed JavaScript source with an explicit
value type `JsValue`, thrown exceptions as `Except JsValue`, and the
asynchronous settlement of promises/observables as already-settled outcomes
carried by `LocalResult`.  The `ObjectRegistry` and the value
marshaller (`TypeRegistry`) are external collaborators of the dispatcher: the
registry is modelled from the spec (its module is not part of the sources at
hand), the marshaller is an opaque environment parameter except for the
reference-type ("named") case, which the dispatcher itself registers.
-/

namespace Nuclide

/-- A JavaScript value, restricted to the shapes the dispatcher inspects:
`undefined`, `null`, strings, numbers, native `Error` instances (with
`message`, `code`, `stack` fields) and other objects carrying only their
`toString` rendering. -/
inductive JsValue where
  | undef
  | null
  | str (s : String)
  | num (n : Int)
  | errObj (message : String) (code : Option String) (stack : String)
  | obj (toStr : String)
deriving DecidableEq, Repr

/-- `new Error(message)`: a native error object with no `code` and a stack we
leave empty (the stack text is host-defined and never inspected). -/
def mkError (message : String) : JsValue :=
  .errObj message none ""

/-- `error.toString()`.  Calling `toString` on `null` or `undefined` throws a
`TypeError`; the text of that host-defined error is modelled. -/
def jsToString : JsValue → Except JsValue String
  | .null => .error (mkError "TypeError: Cannot read toString of null")
  | .undef => .error (mkError "TypeError: Cannot read toString of undefined")
  | .str s => .ok s
  | .num n => .ok (toString n)
  | .errObj message _ _ => .ok ("Error: " ++ message)
  | .obj toStr => .ok toStr

/-- The wire form produced by `formatError` (source lines 402-416): a
`{message, code, stack}` structure, a plain string, or the explicit
`undefined` marker. -/
inductive FormattedError where
  | struct (message : String) (code : Option String) (stack : String)
  | plainStr (s : String)
  | undefinedMarker
deriving DecidableEq, Repr

/-- `formatError` (lines 402-416): native errors become `{message, code,
stack}`; strings pass through; `undefined` becomes the undefined marker; any
other value is rendered with an `Unknown Error:` prefix via `toString` — which
itself throws when the value is `null`. -/
def formatError : JsValue → Except JsValue FormattedError
  | .errObj message code stack => .ok (.struct message code stack)
  | .str s => .ok (.plainStr s)
  | .undef => .ok .undefinedMarker
  | e => (jsToString e).map fun s => .plainStr ("Unknown Error: " ++ s)

/-- The `result` payload of an `ObservableMessage`: a `next` event carrying
data, or the `completed` event. -/
inductive ObservableResult where
  | next (data : JsValue)
  | completed
deriving DecidableEq, Repr

/-- An outbound response message.  All three variants carry the
`service_framework3_rpc` channel tag on the wire; `promiseMessage` and
`observableMessage` carry `hadError = false`, `errorMessage` carries
`hadError = true` (see `Message.hadError`). -/
inductive Message where
  | promiseMessage (requestId : Nat) (result : JsValue)
  | observableMessage (requestId : Nat) (result : ObservableResult)
  | errorMessage (requestId : Nat) (error : FormattedError)
deriving DecidableEq, Repr

/-- The request id carried by a response message. -/
def Message.requestId : Message → Nat
  | .promiseMessage requestId _ => requestId
  | .observableMessage requestId _ => requestId
  | .errorMessage requestId _ => requestId

/-- The `hadError` field of a response message. -/
def Message.hadError : Message → Bool
  | .promiseMessage _ _ => false
  | .observableMessage _ _ => false
  | .errorMessage _ _ => true

/-- `createPromiseMessage` (lines 355-363). -/
def createPromiseMessage (requestId : Nat) (result : JsValue) : Message :=
  .promiseMessage requestId result

/-- `createNextMessage` (lines 365-376). -/
def createNextMessage (requestId : Nat) (data : JsValue) : Message :=
  .observableMessage requestId (.next data)

/-- `createCompletedMessage` (lines 378-386). -/
def createCompletedMessage (requestId : Nat) : Message :=
  .observableMessage requestId .completed

/-- `createErrorMessage` (lines 388-396).  It calls `formatError`, so it
throws exactly when `formatError` does. -/
def createErrorMessage (requestId : Nat) (error : JsValue) : Except JsValue Message :=
  (formatError error).map fun fe => .errorMessage requestId fe

/-- A type descriptor, restricted to the structure the dispatcher inspects:
the return-routing kinds `void` / `promise` / `observable` (line 195), the
reference kind `named` (used at line 259 and registered at lines 106-108), and
every other concrete kind, marshalled opaquely by the external `TypeRegistry`
and carrying only its kind tag. -/
inductive Ty where
  | void
  | promise (t : Ty)
  | observable (t : Ty)
  | named (name : String)
  | base (kindName : String)
deriving DecidableEq, Repr

/-- `type.kind`, the tag string interpolated into the error of `returnValue`
(line 205). -/
def Ty.kind : Ty → String
  | .void => "void"
  | .promise _ => "promise"
  | .observable _ => "observable"
  | .named _ => "named"
  | .base kindName => kindName

/-- The value a local implementation returns, with its asynchronous behaviour
already settled: a plain (non-thenable, non-observable) value, a thenable
whose eventual settlement is `outcome`, or an observable that emits `values`
and then terminates with completion (`.ok ()`) or an error. -/
inductive LocalResult where
  | value (v : JsValue)
  | thenable (outcome : Except JsValue JsValue)
  | observable (values : List JsValue) (terminal : Except JsValue Unit)

/-- `isThenable` (lines 344-346): `Boolean(object && object.then)`. -/
def isThenable : LocalResult → Bool
  | .thenable _ => true
  | _ => false

/-- `isObservable` (lines 351-353): `Boolean(object && object.concatMap &&
object.subscribe)`. -/
def isObservable : LocalResult → Bool
  | .observable _ _ => true
  | _ => false

/-- Modelled from the spec: the `ObjectRegistry` module is imported by the
dispatcher but its source is not among the files at hand.  Per the spec it
tracks live remote-object handles (id → instance with its interface name) and
live stream subscriptions (request id → cancellable handle); ids are
server-generated, unique for the lifetime of the process and never reused.
An instance is represented by the interface name stored with it (`_interface`
on the instance is the only field the dispatcher reads). -/
structure ObjectRegistry where
  nextObjectId : Nat
  objects : List (Nat × String)
  subscriptions : List Nat
deriving DecidableEq, Repr

/-- Modelled from the spec: `add(interfaceName, instance) → id` allocates a
fresh id, stores the mapping and returns the id. -/
def ObjectRegistry.add (reg : ObjectRegistry) (interfaceName : String) :
    Nat × ObjectRegistry :=
  (reg.nextObjectId,
   { reg with
      nextObjectId := reg.nextObjectId + 1,
      objects := (reg.nextObjectId, interfaceName) :: reg.objects })

/-- Modelled from the spec: `get(id)` fails with `UnknownObject` if the id is
absent (disposed or never created); otherwise it returns the instance, here
represented by its interface name. -/
def ObjectRegistry.get (reg : ObjectRegistry) (objectId : Nat) :
    Except JsValue String :=
  match reg.objects.lookup objectId with
  | some interfaceName => .ok interfaceName
  | none => .error (mkError ("UnknownObject: no object with id " ++ toString objectId))

/-- Modelled from the spec: `disposeObject(id)` removes the mapping; disposing
an unknown id is an error, not a silent no-op. -/
def ObjectRegistry.disposeObject (reg : ObjectRegistry) (objectId : Nat) :
    Except JsValue ObjectRegistry :=
  match reg.objects.lookup objectId with
  | some _ =>
    .ok { reg with objects := reg.objects.filter fun entry => entry.1 ≠ objectId }
  | none => .error (mkError ("UnknownObject: no object with id " ++ toString objectId))

/-- Modelled from the spec: `addSubscription(requestId, handle)` records a
live stream subscription; a duplicate request id is an error. -/
def ObjectRegistry.addSubscription (reg : ObjectRegistry) (requestId : Nat) :
    Except JsValue ObjectRegistry :=
  if requestId ∈ reg.subscriptions then
    .error (mkError ("Duplicate subscription for request id " ++ toString requestId))
  else
    .ok { reg with subscriptions := requestId :: reg.subscriptions }

/-- Modelled from the spec: `removeSubscription(requestId)` removes the
bookkeeping entry (used by the stream's own terminal events). -/
def ObjectRegistry.removeSubscription (reg : ObjectRegistry) (requestId : Nat) :
    ObjectRegistry :=
  { reg with subscriptions := reg.subscriptions.filter fun id => id ≠ requestId }

/-- Modelled from the spec: `disposeSubscription(requestId)` actively cancels
the underlying stream in addition to removing the entry.  The cancellation is
reflected in the delivery model by running the rest of the stream against a
cancelled `Subscription` (see `deliverEvents`). -/
def ObjectRegistry.disposeSubscription (reg : ObjectRegistry) (requestId : Nat) :
    ObjectRegistry :=
  reg.removeSubscription requestId

/-- The external collaborators the dispatcher consumes opaquely: the
`TypeRegistry`'s marshaller and argument unmarshaller for non-reference types,
and the behaviour of instance methods of locally registered objects
(`object[method].apply(object, args)` at line 236, identified by the object's
interface name and the method name). -/
structure ExternalEnv where
  baseMarshal : JsValue → Ty → Except JsValue JsValue
  baseUnmarshalArguments : List JsValue → List Ty → Except JsValue (List JsValue)
  objMethod : String → String → List JsValue → Except JsValue LocalResult

/-- `this._typeRegistry.marshal(value, type)`: for a `named` (reference) type
the dispatcher itself registered the converter at lines 106-108 — insert the
instance into the Object Registry and return its id; every other type is
marshalled by the external registry. -/
def marshal (env : ExternalEnv) (reg : ObjectRegistry) (v : JsValue) :
    Ty → Except JsValue (JsValue × ObjectRegistry)
  | .named interfaceName =>
    let (objectId, reg2) := reg.add interfaceName
    .ok (.num objectId, reg2)
  | t => (env.baseMarshal v t).map fun w => (w, reg)

/-- The settled outcome of the promise pipeline of `returnPromise` (lines
144-155): if the candidate is not thenable it is replaced by a rejection with
the type-contract error (lines 147-150); otherwise its settlement is chained
through `this._typeRegistry.marshal` (line 154). -/
def settledPromiseOutcome (env : ExternalEnv) (reg : ObjectRegistry)
    (candidate : LocalResult) (t : Ty) : Except JsValue (JsValue × ObjectRegistry) :=
  match candidate with
  | .thenable outcome => outcome.bind fun v => marshal env reg v t
  | _ => .error (mkError "Expected a Promise, but the function returned something else.")

/-- `returnPromise` (lines 144-164): send the settled result across the
socket — `createPromiseMessage` on success, `createErrorMessage` on failure.
When `createErrorMessage` itself throws (its `formatError` throws on a `null`
rejection value) the throw happens inside the rejection continuation, so
nothing is sent at all. -/
def returnPromise (requestId : Nat) (env : ExternalEnv) (reg : ObjectRegistry)
    (candidate : LocalResult) (t : Ty) : List Message × ObjectRegistry :=
  match settledPromiseOutcome env reg candidate t with
  | .ok (result, reg2) => ([createPromiseMessage requestId result], reg2)
  | .error e =>
    match createErrorMessage requestId e with
    | .ok m => ([m], reg)
    | .error _ => ([], reg)

/-- An event of the marshalled stream as it reaches the subscriber of
`returnObservable`: a `next` value, natural completion, or a terminal error. -/
inductive ObsEvent where
  | next (data : JsValue)
  | completedEv
  | errorEv (e : JsValue)
deriving DecidableEq, Repr

/-- `result.concatMap(value => this._typeRegistry.marshal(value, elementType))`
(lines 177-178): each emitted value is marshalled in order; a marshal failure
after partial emission surfaces as a terminal error event in place of the rest
of the stream; otherwise the source's own terminal event ends the stream. -/
def marshalEvents (env : ExternalEnv) (t : Ty) (reg : ObjectRegistry) :
    List JsValue → Except JsValue Unit → List ObsEvent × ObjectRegistry
  | [], .ok _ => ([.completedEv], reg)
  | [], .error e => ([.errorEv e], reg)
  | v :: rest, terminal =>
    match marshal env reg v t with
    | .ok (w, reg2) =>
      let (events, reg3) := marshalEvents env t reg2 rest terminal
      (.next w :: events, reg3)
    | .error e => ([.errorEv e], reg)

/-- The cancellable handle returned by `result.subscribe` (line 181): once
disposed, the runtime invokes none of the three handlers. -/
structure Subscription where
  cancelled : Bool
deriving DecidableEq, Repr

/-- Delivery of stream events to the three handlers installed at lines
181-189: a `next` event sends a next message; completion sends the completed
message and removes the subscription (lines 186-189); an error sends the error
message and removes the subscription (lines 183-186) — unless
`createErrorMessage` itself throws, in which case neither happens.  A
cancelled subscription delivers nothing, and a terminal event ends
delivery. -/
def deliverEvents (requestId : Nat) (sub : Subscription) (reg : ObjectRegistry) :
    List ObsEvent → List Message × ObjectRegistry
  | [] => ([], reg)
  | ev :: rest =>
    if sub.cancelled then ([], reg)
    else
      match ev with
      | .next data =>
        let (msgs, reg2) := deliverEvents requestId sub reg rest
        (createNextMessage requestId data :: msgs, reg2)
      | .completedEv =>
        ([createCompletedMessage requestId], reg.removeSubscription requestId)
      | .errorEv e =>
        match createErrorMessage requestId e with
        | .ok m => ([m], reg.removeSubscription requestId)
        | .error _ => ([], reg)

/-- `returnObservable` (lines 166-191): a non-observable return value is
replaced by `Observable.throw` with the type-contract error (lines 169-174),
the values are marshalled (lines 177-178), the events are sent over the socket
by the subscription handlers (lines 181-189), and only then is the
subscription recorded in the Object Registry (line 190).  `syncTermination`
distinguishes the two real interleavings: `true` when the stream delivers all
its events synchronously during `subscribe` — so line 190 runs after the
terminal handler — and `false` when every event fires after `handleMessage`'s
turn, the usual asynchronous case.  The error channel carries the only throw
of this block, the spec-modelled duplicate-subscription error of
`addSubscription`. -/
def returnObservable (requestId : Nat) (env : ExternalEnv) (t : Ty)
    (returnVal : LocalResult) (syncTermination : Bool) (reg : ObjectRegistry) :
    Except JsValue (List Message × ObjectRegistry) :=
  let source : List JsValue × Except JsValue Unit :=
    match returnVal with
    | .observable values terminal => (values, terminal)
    | _ => ([], .error (mkError "Expected an Observable, but the function returned something else."))
  let (events, reg1) := marshalEvents env t reg source.1 source.2
  if syncTermination then
    let (msgs, reg2) := deliverEvents requestId ⟨false⟩ reg1 events
    (reg2.addSubscription requestId).map fun reg3 => (msgs, reg3)
  else
    (reg1.addSubscription requestId).map fun reg2 =>
      deliverEvents requestId ⟨false⟩ reg2 events

/-- `returnValue` (lines 194-208): route the local return value by its
declared return kind; the boolean records whether a promise was returned.  An
undeclared kind throws `Unkown return type …` (sic, line 205). -/
def returnValue (requestId : Nat) (env : ExternalEnv) (syncTermination : Bool)
    (reg : ObjectRegistry) (value : LocalResult) :
    Ty → Except JsValue (List Message × ObjectRegistry × Bool)
  | .void => .ok ([], reg, false)
  | .promise t =>
    let (msgs, reg2) := returnPromise requestId env reg value t
    .ok (msgs, reg2, true)
  | .observable t =>
    (returnObservable requestId env t value syncTermination reg).map
      fun (msgs, reg2) => (msgs, reg2, false)
  | t => .error (mkError ("Unkown return type " ++ t.kind ++ "."))

/-- A function signature: ordered argument types and the return type. -/
structure FunctionType where
  argumentTypes : List Ty
  returnType : Ty

/-- An entry of the function table: the local implementation together with its
type (line 41).  The implementation's synchronous throw is the error channel;
its returned value, with asynchronous behaviour settled, is a
`LocalResult`. -/
structure FunctionImplementation where
  localImplementation : List JsValue → Except JsValue LocalResult
  type : FunctionType

/-- An interface definition as consumed by registration and dispatch:
constructor signature, instance methods and static methods (both as
name-keyed signature tables). -/
structure InterfaceDefinition where
  constructorArgs : List Ty
  instanceMethods : List (String × FunctionType)
  staticMethods : List (String × FunctionType)

/-- An entry of the class table (`_classesByName`, line 56): the local
constructor (the behaviour of `construct(localImplementation, args)` at line
252, whose throw is the error channel and whose result is the new instance)
and the interface definition. -/
structure ClassEntry where
  localImplementation : List JsValue → Except JsValue JsValue
  definition : InterfaceDefinition

/-- The dispatcher's state: the function table, the class table and the
Object Registry (lines 50-58).  The tables are write-once at registration;
only the registry mutates during dispatch. -/
structure ServerComponent where
  functionsByName : List (String × FunctionImplementation)
  classesByName : List (String × ClassEntry)
  objectRegistry : ObjectRegistry

/-- `_registerFunction` (lines 124-133): registering a name already present
in the function table throws `Duplicate RPC function: …` before any write, so
the existing entry is untouched; otherwise the entry is added. -/
def ServerComponent.registerFunction (self : ServerComponent) (name : String)
    (localImpl : List JsValue → Except JsValue LocalResult) (type : FunctionType) :
    Except JsValue ServerComponent :=
  if (self.functionsByName.lookup name).isSome then
    .error (mkError ("Duplicate RPC function: " ++ name))
  else
    .ok { self with
            functionsByName :=
              (name, { localImplementation := localImpl, type := type })
                :: self.functionsByName }

/-- The static-method loop of the `interface` case of `addService` (lines
110-113): each static method is registered as a remote function under
`{interfaceName}/{methodName}`, with its local implementation taken from the
loaded module (`staticImpls`). -/
def ServerComponent.registerStatics (self : ServerComponent) (interfaceName : String)
    (staticImpls : String → List JsValue → Except JsValue LocalResult) :
    List (String × FunctionType) → Except JsValue ServerComponent
  | [] => .ok self
  | (funcName, funcType) :: rest =>
    (self.registerFunction (interfaceName ++ "/" ++ funcName)
        (staticImpls funcName) funcType).bind
      fun self2 => self2.registerStatics interfaceName staticImpls rest

/-- The `interface` case of `addService` (lines 98-114): the class table entry
is written with `Map.set` — no duplicate check, a later definition with the
same name silently replaces the earlier one — then the interface name is
registered as a reference type with the Type Registry (lines 106-108; that
converter is the `.named` case of `marshal`), and finally every static method
is registered in the function table, where duplicates do throw. -/
def ServerComponent.registerInterfaceDefinition (self : ServerComponent)
    (name : String) (localImpl : List JsValue → Except JsValue JsValue)
    (staticImpls : String → List JsValue → Except JsValue LocalResult)
    (definition : InterfaceDefinition) : Except JsValue ServerComponent :=
  let self1 :=
    { self with
        classesByName :=
          (name, { localImplementation := localImpl, definition := definition })
            :: self.classesByName }
  self1.registerStatics name staticImpls definition.staticMethods

/-- `_getFunctionImplemention` (lines 300-304): table lookup guarded by
`invariant(result)`; a missing name throws the host-defined assertion
error. -/
def ServerComponent.getFunctionImplemention (self : ServerComponent)
    (name : String) : Except JsValue FunctionImplementation :=
  match self.functionsByName.lookup name with
  | some result => .ok result
  | none => .error (mkError ("Invariant violation: no function named " ++ name))

/-- `invariant(x != null)` applied to an optional lookup result: the
host-defined assertion error is thrown when the value is absent. -/
def invariantSome (what : String) : Option α → Except JsValue α
  | some a => .ok a
  | none => .error (mkError ("Invariant violation: " ++ what))

/-- An inbound request message (lines 27-35): the five known variants plus a
message whose type tag is none of them, carrying that tag. -/
inductive RequestMessage where
  | functionCall (requestId : Nat) (function : String) (args : List JsValue)
  | methodCall (requestId : Nat) (objectId : Nat) (method : String) (args : List JsValue)
  | newObject (requestId : Nat) (interfaceName : String) (args : List JsValue)
  | disposeObject (requestId : Nat) (objectId : Nat)
  | disposeObservable (requestId : Nat)
  | unknownMessage (requestId : Nat) (msgType : String)
deriving DecidableEq, Repr

/-- `message.requestId` (line 136). -/
def RequestMessage.requestId : RequestMessage → Nat
  | .functionCall requestId _ _ => requestId
  | .methodCall requestId _ _ _ => requestId
  | .newObject requestId _ _ => requestId
  | .disposeObject requestId _ => requestId
  | .disposeObservable requestId => requestId
  | .unknownMessage requestId _ => requestId

/-- `trackingIdOfMessage` (lines 306-324).  The `MethodCall` and
`DisposeObject` cases read the target object out of the Object Registry to
name its interface, so they throw on an unknown object id; an unknown message
type throws `Unknown message type …` (line 322). -/
def ServerComponent.trackingIdOfMessage (self : ServerComponent) :
    RequestMessage → Except JsValue String
  | .functionCall _ function _ =>
    .ok ("service-framework:" ++ function)
  | .methodCall _ objectId method _ =>
    (self.objectRegistry.get objectId).map fun obj =>
      "service-framework:" ++ obj ++ "." ++ method
  | .newObject _ interfaceName _ =>
    .ok ("service-framework:new:" ++ interfaceName)
  | .disposeObject _ objectId =>
    (self.objectRegistry.get objectId).map fun interfaceName =>
      "service-framework:dispose:" ++ interfaceName
  | .disposeObservable _ =>
    .ok "service-framework:disposeObservable"
  | .unknownMessage _ msgType =>
    .error (mkError ("Unknown message type " ++ msgType))

/-- `callFunction` (lines 210-221): look up the function entry (assertion
throws on an unknown name), unmarshal the arguments, invoke the local
implementation and route its return value. -/
def callFunction (env : ExternalEnv) (syncTermination : Bool)
    (self : ServerComponent) (requestId : Nat) (function : String)
    (args : List JsValue) : Except JsValue (List Message × ObjectRegistry × Bool) := do
  let impl ← self.getFunctionImplemention function
  let marshalledArgs ← env.baseUnmarshalArguments args impl.type.argumentTypes
  let result ← impl.localImplementation marshalledArgs
  returnValue requestId env syncTermination self.objectRegistry result impl.type.returnType

/-- `callMethod` (lines 223-238): resolve the object (throws on an unknown
id), its class definition and the method's signature (assertions), unmarshal
the arguments, invoke the instance method and route its return value. -/
def callMethod (env : ExternalEnv) (syncTermination : Bool)
    (self : ServerComponent) (requestId : Nat) (objectId : Nat) (method : String)
    (args : List JsValue) : Except JsValue (List Message × ObjectRegistry × Bool) := do
  let interfaceOfObject ← self.objectRegistry.get objectId
  let classDefinition ←
    invariantSome "classDefinition != null" (self.classesByName.lookup interfaceOfObject)
  let type ←
    invariantSome "type != null" (classDefinition.definition.instanceMethods.lookup method)
  let marshalledArgs ← env.baseUnmarshalArguments args type.argumentTypes
  let result ← env.objMethod interfaceOfObject method marshalledArgs
  returnValue requestId env syncTermination self.objectRegistry result type.returnType

/-- `callConstructor` (lines 240-263): resolve the class entry (assertion),
unmarshal the constructor arguments, construct the instance (a throw in the
constructor is the error channel) and return it through `returnPromise` at the
reference type `{kind: named, name: interface}` — marshalling it inserts it
into the Object Registry and sends its id. -/
def callConstructor (env : ExternalEnv) (self : ServerComponent)
    (requestId : Nat) (interfaceName : String) (args : List JsValue) :
    Except JsValue (List Message × ObjectRegistry × Bool) := do
  let classDefinition ←
    invariantSome "classDefinition != null" (self.classesByName.lookup interfaceName)
  let marshalledArgs ←
    env.baseUnmarshalArguments args classDefinition.definition.constructorArgs
  let newObject ← classDefinition.localImplementation marshalledArgs
  let (msgs, reg2) :=
    returnPromise requestId env self.objectRegistry
      (.thenable (.ok newObject)) (.named interfaceName)
  return (msgs, reg2, true)

/-- The body of `handleMessage`'s try block (lines 266-292): dispatch by
message type.  `DisposeObject` disposes then replies through `returnPromise`
at `voidType` with `Promise.resolve()` (whose value is `undefined`);
`DisposeObservable` disposes the subscription and sends nothing; an unknown
type throws `Unkown message type …` (sic, line 288). -/
def tryBody (env : ExternalEnv) (syncTermination : Bool) (self : ServerComponent) :
    RequestMessage → Except JsValue (List Message × ObjectRegistry × Bool)
  | .functionCall requestId function args =>
    callFunction env syncTermination self requestId function args
  | .methodCall requestId objectId method args =>
    callMethod env syncTermination self requestId objectId method args
  | .newObject requestId interfaceName args =>
    callConstructor env self requestId interfaceName args
  | .disposeObject requestId objectId =>
    (self.objectRegistry.disposeObject objectId).map fun reg1 =>
      let (msgs, reg2) := returnPromise requestId env reg1 (.thenable (.ok .undef)) .void
      (msgs, reg2, true)
  | .disposeObservable requestId =>
    .ok ([], self.objectRegistry.disposeSubscription requestId, false)
  | .unknownMessage _ msgType =>
    .error (mkError ("Unkown message type " ++ msgType))

/-- What one `handleMessage` turn does: the response messages sent on the
socket, and either the updated registry or the error that escaped the
(async) method — i.e. the rejection of the promise `handleMessage` returns,
which no caller converts into a response. -/
structure HandleResult where
  sent : List Message
  outcome : Except JsValue ObjectRegistry

/-- `true` when an error escaped `handleMessage` instead of being converted
into a response. -/
def HandleResult.escaped (r : HandleResult) : Bool :=
  match r.outcome with
  | .error _ => true
  | .ok _ => false

/-- The registry a completed (non-escaped) turn leaves behind. -/
def HandleResult.registryOutcome (r : HandleResult) : Option ObjectRegistry :=
  match r.outcome with
  | .ok reg => some reg
  | .error _ => none

/-- `handleMessage` (lines 135-298).  The tracking label is computed at line
142, *before* the try block of line 266: a throw there (unknown object id in a
`MethodCall`/`DisposeObject` label, unknown message type) escapes with nothing
sent.  Inside the try block, a thrown error is caught at line 293 and
converted into one error message for the originating request id — unless
`createErrorMessage` itself throws (a `null` error), which escapes the catch
block.  On a caught error no registry write has happened, so the registry is
the original one. -/
def ServerComponent.handleMessage (env : ExternalEnv) (syncTermination : Bool)
    (self : ServerComponent) (message : RequestMessage) : HandleResult :=
  let requestId := message.requestId
  match self.trackingIdOfMessage message with
  | .error e => { sent := [], outcome := .error e }
  | .ok _ =>
    match tryBody env syncTermination self message with
    | .ok (msgs, reg, _returnedPromise) => { sent := msgs, outcome := .ok reg }
    | .error e =>
      match createErrorMessage requestId e with
      | .ok m => { sent := [m], outcome := .ok self.objectRegistry }
      | .error e2 => { sent := [], outcome := .error e2 }

/-- The spec's reading of `handleMessage` (§4.4): the timing/tracking hook is
a pure side-channel that must never alter dispatch outcomes.  This variant
performs the same dispatch with the tracking span — and the computation of its
label — absent; it is the refinement baseline `handleMessage` is compared
against. -/
def ServerComponent.handleMessageSpecNoTracking (env : ExternalEnv)
    (syncTermination : Bool) (self : ServerComponent) (message : RequestMessage) :
    HandleResult :=
  match tryBody env syncTermination self message with
  | .ok (msgs, reg, _returnedPromise) => { sent := msgs, outcome := .ok reg }
  | .error e =>
    match createErrorMessage message.requestId e with
    | .ok m => { sent := [m], outcome := .ok self.objectRegistry }
    | .error e2 => { sent := [], outcome := .error e2 }

/-! Concrete fixtures used to evaluate the model: an identity-like external
environment, an empty server, and a server exposing one `Counter` interface. -/

/-- A concrete external environment: the base marshaller passes values through
unchanged, argument unmarshalling is the identity, and every instance method
returns `undefined`. -/
def testEnv : ExternalEnv where
  baseMarshal := fun v _ => .ok v
  baseUnmarshalArguments := fun args _ => .ok args
  objMethod := fun _ _ _ => .ok (.value .undef)

/-- A fresh Object Registry. -/
def emptyRegistry : ObjectRegistry := ⟨0, [], []⟩

/-- A server with no registered services. -/
def emptyComponent : ServerComponent := ⟨[], [], emptyRegistry⟩

/-- The class entry of a `Counter` interface with a trivial constructor and no
methods. -/
def counterEntry : ClassEntry where
  localImplementation := fun _ => .ok .undef
  definition := ⟨[], [], []⟩

/-- A server exposing the `Counter` interface over a fresh registry. -/
def c5Component : ServerComponent := ⟨[], [("Counter", counterEntry)], emptyRegistry⟩

/-- `c5Component` after a successful `NewObject` allocated object id 0. -/
def c5After1 : ServerComponent := ⟨[], [("Counter", counterEntry)], ⟨1, [(0, "Counter")], []⟩⟩

/-- `c5After1` after object id 0 was disposed (the id is not reused). -/
def c5After2 : ServerComponent := ⟨[], [("Counter", counterEntry)], ⟨1, [], []⟩⟩

/-! Helper lemmas. -/

/-- `formatError` succeeds on every value except `null` (whose `toString`
throws). -/
theorem formatError_ok_of_ne_null (e : JsValue) (h : e ≠ JsValue.null) :
    ∃ fe, formatError e = .ok fe := by
  cases e with
  | null => exact absurd rfl h
  | undef => exact ⟨.undefinedMarker, rfl⟩
  | str s => exact ⟨.plainStr s, rfl⟩
  | num n => exact ⟨.plainStr ("Unknown Error: " ++ toString n), rfl⟩
  | errObj m c st => exact ⟨.struct m c st, rfl⟩
  | obj r => exact ⟨.plainStr ("Unknown Error: " ++ r), rfl⟩

/-- Delivery of a well-formed completed stream: each `next` event sends its
next message in order, and the completion event sends the completed message
and removes the subscription. -/
theorem deliverEvents_next_completed (requestId : Nat) (reg : ObjectRegistry)
    (ws : List JsValue) :
    deliverEvents requestId ⟨false⟩ reg (ws.map ObsEvent.next ++ [ObsEvent.completedEv])
      = (ws.map (createNextMessage requestId) ++ [createCompletedMessage requestId],
         reg.removeSubscription requestId) := by
  induction ws with
  | nil => simp [deliverEvents]
  | cons w rest ih => simp [deliverEvents, ih]

/-! The claims. -/

/-- C1: the claim says every per-request error is caught at the dispatcher
boundary and converted into exactly one error response; but for a `MethodCall`
whose object id is unknown, the error is raised while computing the tracking
label (line 142), *before* the try block of line 266, so it escapes
`handleMessage` and no response at all is sent for the originating request
id. -/
theorem nuclide_C1_unknown_object_error_escapes_dispatcher :
    (emptyComponent.handleMessage testEnv false (.methodCall 7 42 "m" [])).sent = []
    ∧ (emptyComponent.handleMessage testEnv false (.methodCall 7 42 "m" [])).escaped = true := by
  decide

/-- C2: the claim says the tracking hook is a pure side-channel and the
outbound messages are identical with or without it; but for a `MethodCall`
with an unknown object id the tracking-label computation throws before the try
block, so with the hook nothing is sent, while the dispatch without the hook
sends the one error response. -/
theorem nuclide_C2_tracking_alters_dispatch_outcome :
    (emptyComponent.handleMessage testEnv false (.methodCall 9 5 "m" [])).sent = []
    ∧ (emptyComponent.handleMessageSpecNoTracking testEnv false (.methodCall 9 5 "m" [])).sent
        = [.errorMessage 9 (.struct "UnknownObject: no object with id 5" none "")]
    ∧ (emptyComponent.handleMessage testEnv false (.methodCall 9 5 "m" [])).sent
        ≠ (emptyComponent.handleMessageSpecNoTracking testEnv false (.methodCall 9 5 "m" [])).sent := by
  decide

/-- C3: an observable-returning call whose stream emits values that marshal to
`ws` and then completes sends exactly the `next` messages for `ws` in order,
followed by exactly one completed message; and once the subscription is
cancelled by a `DisposeObservable` (the dispose handler runs the rest of the
stream against a cancelled subscription), no further message is sent for that
request id. -/
theorem nuclide_C3_observable_events_in_order (requestId : Nat) (env : ExternalEnv)
    (t : Ty) (values ws : List JsValue) (reg reg2 : ObjectRegistry)
    (hm : marshalEvents env t reg values (.ok ())
            = (ws.map ObsEvent.next ++ [ObsEvent.completedEv], reg2))
    (hfresh : requestId ∉ reg2.subscriptions) :
    (∃ reg3,
      returnObservable requestId env t (.observable values (.ok ())) false reg
        = .ok (ws.map (createNextMessage requestId) ++ [createCompletedMessage requestId], reg3))
    ∧ (∀ rest regd, deliverEvents requestId ⟨true⟩ regd rest = ([], regd)) := by
  constructor
  · refine ⟨(reg2.removeSubscription requestId), ?_⟩
    unfold returnObservable
    dsimp only
    rw [hm]
    simp [ObjectRegistry.addSubscription, hfresh, deliverEvents_next_completed,
      ObjectRegistry.removeSubscription, Except.map, List.filter_cons]
  · intro rest regd
    cases rest <;> simp [deliverEvents]

/-- Witness for C3 at a concrete stream of two values. -/
theorem nuclide_C3_witness :
    (∃ reg3,
      returnObservable 4 testEnv (Ty.base "n")
          (.observable [JsValue.num 1, JsValue.num 2] (.ok ())) false emptyRegistry
        = .ok ([JsValue.num 1, JsValue.num 2].map (createNextMessage 4)
                ++ [createCompletedMessage 4], reg3))
    ∧ (∀ rest regd, deliverEvents 4 ⟨true⟩ regd rest = ([], regd)) :=
  nuclide_C3_observable_events_in_order 4 testEnv (Ty.base "n")
    [JsValue.num 1, JsValue.num 2] [JsValue.num 1, JsValue.num 2]
    emptyRegistry emptyRegistry (by decide) (by decide)

/-- C4 counterexample: a promise-returning call whose local implementation
rejects with `null` sends no response at all — `formatError` throws inside the
rejection continuation — contradicting the claim that exactly one response is
sent for every rejection. -/
theorem nuclide_C4_counterexample_null_rejection :
    (returnPromise 3 testEnv emptyRegistry (.thenable (.error JsValue.null)) (.base "string")).1
      = [] := by
  decide

/-- C4 (amended): for a promise-kind return, whenever the settled error (if
any) is not `null`, exactly one response message is sent for the request id:
the `PromiseMessage` of the marshalled value on success, or the error response
on failure, never both; and a non-thenable return value takes the synthesized
failed-deferred path, producing the error response. -/
theorem nuclide_C4_promise_exactly_one_response (requestId : Nat) (env : ExternalEnv)
    (reg : ObjectRegistry) (candidate : LocalResult) (t : Ty)
    (h : ∀ e, settledPromiseOutcome env reg candidate t = .error e → e ≠ JsValue.null) :
    ((∃ w reg2, settledPromiseOutcome env reg candidate t = .ok (w, reg2)
        ∧ (returnPromise requestId env reg candidate t).1 = [createPromiseMessage requestId w])
      ∨ (∃ e fe, settledPromiseOutcome env reg candidate t = .error e
        ∧ formatError e = .ok fe
        ∧ (returnPromise requestId env reg candidate t).1 = [Message.errorMessage requestId fe]))
    ∧ (returnPromise requestId env reg candidate t).1.length = 1
    ∧ (∀ m ∈ (returnPromise requestId env reg candidate t).1, m.requestId = requestId)
    ∧ (isThenable candidate = false →
        ∃ fe, (returnPromise requestId env reg candidate t).1
          = [Message.errorMessage requestId fe]) := by
  cases hs : settledPromiseOutcome env reg candidate t with
  | ok pair =>
    obtain ⟨w, reg2⟩ := pair
    have hmsg : (returnPromise requestId env reg candidate t).1
        = [createPromiseMessage requestId w] := by
      simp [returnPromise, hs]
    refine ⟨.inl ⟨w, reg2, rfl, hmsg⟩, ?_, ?_, ?_⟩
    · simp [hmsg]
    · intro m hmem
      rw [hmsg] at hmem
      simp at hmem
      simp [hmem, createPromiseMessage, Message.requestId]
    · intro hth
      exfalso
      cases candidate with
      | thenable outcome => simp [isThenable] at hth
      | value v => simp [settledPromiseOutcome] at hs
      | observable values terminal => simp [settledPromiseOutcome] at hs
  | error e =>
    obtain ⟨fe, hfe⟩ := formatError_ok_of_ne_null e (h e hs)
    have hmsg : (returnPromise requestId env reg candidate t).1
        = [Message.errorMessage requestId fe] := by
      simp [returnPromise, hs, createErrorMessage, hfe, Except.map]
    refine ⟨.inr ⟨e, fe, rfl, hfe, hmsg⟩, ?_, ?_, ?_⟩
    · simp [hmsg]
    · intro m hmem
      rw [hmsg] at hmem
      simp at hmem
      simp [hmem, Message.requestId]
    · intro _
      exact ⟨fe, hmsg⟩

/-- Witness for C4 at a resolved promise carrying the number 5. -/
theorem nuclide_C4_witness :
    (returnPromise 3 testEnv emptyRegistry (.thenable (.ok (.num 5))) (Ty.base "t")).1.length
      = 1 :=
  (nuclide_C4_promise_exactly_one_response 3 testEnv emptyRegistry
      (.thenable (.ok (.num 5))) (Ty.base "t")
      (fun e h => by
        simp [settledPromiseOutcome, marshal, testEnv, Except.bind, Except.map] at h)).2.1

/-- C5: the claim says a second `DisposeObject` for an already-disposed id
fails with `UnknownObject` *reported to the peer* as an error response; in the
code the lookup failure happens while computing the tracking label (line 317),
before the try block, so the error escapes `handleMessage` and nothing is sent.
The first two steps hold: `NewObject` yields the fresh id 0 and the first
`DisposeObject` sends one void `PromiseMessage`. -/
theorem nuclide_C5_second_dispose_not_reported :
    (c5Component.handleMessage testEnv false (.newObject 1 "Counter" [])).sent
        = [.promiseMessage 1 (.num 0)]
    ∧ (c5Component.handleMessage testEnv false (.newObject 1 "Counter" [])).registryOutcome
        = some c5After1.objectRegistry
    ∧ (c5After1.handleMessage testEnv false (.disposeObject 2 0)).sent
        = [.promiseMessage 2 .undef]
    ∧ (c5After1.handleMessage testEnv false (.disposeObject 2 0)).registryOutcome
        = some c5After2.objectRegistry
    ∧ (c5After2.handleMessage testEnv false (.disposeObject 3 0)).sent = []
    ∧ (c5After2.handleMessage testEnv false (.disposeObject 3 0)).escaped = true := by
  decide

/-- C6: registering a second function under a qualified name already present
in the function table throws `Duplicate RPC function: …` — before any write,
so no updated table is ever produced and the existing entry stands. -/
theorem nuclide_C6_duplicate_function_registration (self : ServerComponent)
    (name : String) (localImpl : List JsValue → Except JsValue LocalResult)
    (type : FunctionType)
    (h : (self.functionsByName.lookup name).isSome = true) :
    self.registerFunction name localImpl type
        = .error (mkError ("Duplicate RPC function: " ++ name))
    ∧ ∀ self2, self.registerFunction name localImpl type ≠ .ok self2 := by
  refine ⟨?_, ?_⟩
  · simp [ServerComponent.registerFunction, h]
  · intro self2
    simp [ServerComponent.registerFunction, h]

/-- A server whose function table already holds `svc/f`. -/
def dupTable : ServerComponent :=
  ⟨[("svc/f", ⟨fun _ => .ok (.value .undef), ⟨[], .void⟩⟩)], [], emptyRegistry⟩

/-- Witness for C6 on the concrete table holding `svc/f`. -/
theorem nuclide_C6_witness :
    dupTable.registerFunction "svc/f" (fun _ => .ok (.value .undef)) ⟨[], .void⟩
      = .error (mkError ("Duplicate RPC function: " ++ "svc/f")) :=
  (nuclide_C6_duplicate_function_registration dupTable "svc/f"
    (fun _ => .ok (.value .undef)) ⟨[], .void⟩ rfl).1

/-- C7: the claim says that after the stream's terminal event the registry
holds no subscription entry for the request id, *including* synchronous
termination during subscribe; but when the stream terminates synchronously,
the terminal handler's `removeSubscription` (lines 185/188) runs before
`addSubscription` (line 190), so the dead subscription is then added and the
entry remains after the completed event was sent. -/
theorem nuclide_C7_sync_termination_leaves_subscription :
    (returnObservable 11 testEnv (.base "x") (.observable [] (.ok ())) true emptyRegistry).toOption
      = some ([createCompletedMessage 11], ⟨0, [], [11]⟩) := by
  decide

/-- C8: the claim says a message of unknown type is surfaced to the peer as an
`ErrorMessage` carrying the request id; in the code `trackingIdOfMessage`
throws `Unknown message type …` (line 322) before the try block is entered, so
the `Unkown message type` throw of line 288 — the one the catch would convert
into an `ErrorMessage` — is unreachable and the error escapes with nothing
sent. -/
theorem nuclide_C8_unknown_message_type_escapes :
    (emptyComponent.handleMessage testEnv false (.unknownMessage 5 "Oops")).sent = []
    ∧ (emptyComponent.handleMessage testEnv false (.unknownMessage 5 "Oops")).escaped = true := by
  decide

/-- C9 counterexample: the claim says every value other than an `Error`
instance, a string, or an absent error is returned as a string with the
`Unknown Error:` prefix; but for `null` the `else` branch calls
`null.toString()`, which throws, so `formatError` returns nothing at all. -/
theorem nuclide_C9_counterexample_null_error :
    (formatError JsValue.null).isOk = false := by
  decide

/-- C9 (amended): `formatError` returns `{message, code, stack}` for native
`Error` instances, the string itself for strings, the undefined marker for the
absent (`undefined`) error, and an `Unknown Error:`-prefixed string for every
other non-`null` value; on `null` it throws instead of returning. -/
theorem nuclide_C9_formatError_cases (m s toStr : String) (code : Option String)
    (stack : String) (n : Int) :
    formatError (.errObj m code stack) = .ok (.struct m code stack)
    ∧ formatError (.str s) = .ok (.plainStr s)
    ∧ formatError .undef = .ok .undefinedMarker
    ∧ formatError (.num n) = .ok (.plainStr ("Unknown Error: " ++ toString n))
    ∧ formatError (.obj toStr) = .ok (.plainStr ("Unknown Error: " ++ toStr))
    ∧ (formatError .null).isOk = false :=
  ⟨rfl, rfl, rfl, rfl, rfl, rfl⟩

/-- C10: registering a second interface definition under a name already in
the class table raises no duplicate error at the interface table: the entry is
silently replaced (the new constructor and definition are what the table then
yields) and — with no static methods to add — the function table, the only
place duplicates are checked, is untouched. -/
theorem nuclide_C10_interface_reregistration_replaces (self : ServerComponent)
    (name : String) (localImpl : List JsValue → Except JsValue JsValue)
    (staticImpls : String → List JsValue → Except JsValue LocalResult)
    (definition : InterfaceDefinition)
    (hstat : definition.staticMethods = [])
    (_hdup : (self.classesByName.lookup name).isSome = true) :
    ∃ self2,
      self.registerInterfaceDefinition name localImpl staticImpls definition = .ok self2
      ∧ self2.classesByName.lookup name
          = some { localImplementation := localImpl, definition := definition }
      ∧ self2.functionsByName = self.functionsByName := by
  refine ⟨{ self with
              classesByName :=
                (name, { localImplementation := localImpl, definition := definition })
                  :: self.classesByName },
          ?_, ?_, ?_⟩
  · simp [ServerComponent.registerInterfaceDefinition, hstat, ServerComponent.registerStatics]
  · simp [List.lookup]
  · rfl

/-- Witness for C10: re-registering `Counter` on the server that already has
it. -/
theorem nuclide_C10_witness :
    ∃ self2,
      c5Component.registerInterfaceDefinition "Counter" (fun _ => .ok .null)
          (fun _ _ => .ok (.value .undef)) ⟨[], [], []⟩ = .ok self2
      ∧ self2.classesByName.lookup "Counter"
          = some ⟨fun _ => .ok .null, ⟨[], [], []⟩⟩
      ∧ self2.functionsByName = c5Component.functionsByName :=
  nuclide_C10_interface_reregistration_replaces c5Component "Counter"
    (fun _ => .ok .null) (fun _ _ => .ok (.value .undef)) ⟨[], [], []⟩ rfl rfl

end Nuclide
